import Mathlib

/-!
Shallow embedding of the invite-tracker bot (src/bot.py): the group registry,
the invite-counter store, the access gate and the leaderboard read, together
with theorems settling the specification claims about them.

Conventions of the embedding:
* Firestore documents are records whose fields are `Option`-valued where the
  Python code reads them with a dict-style default (`.get(key, default)`).
* Timestamps (`datetime.utcnow()`) are abstracted as a `now : Nat` argument.
* A store read that may raise or find no document is a `ReadOutcome`.
* The per-group database state (group document, inviters subcollection,
  member-joins log) is a `GroupState`; the inviters subcollection is an
  association list from user id to inviter document.
-/

/-- Module-level constant REQUIRED_INVITES = 3 from bot.py. -/
def REQUIRED_INVITES : Int := 3

/-- A document in the groups collection. Every field is optional because the
readers use dict defaults; the writers set the fields shown in bot.py. -/
structure GroupDoc where
  group_name : Option String := none
  group_id : Option Int := none
  added_on : Option Nat := none
  last_updated : Option Nat := none
  invite_requirement_enabled : Option Bool := none
  required_invites : Option Int := none
deriving DecidableEq

/-- Outcome of a single Firestore document read: the document exists with the
given contents, the document is absent, or the store raised an exception. -/
inductive ReadOutcome (α : Type) where
  | ok (value : α)
  | missing
  | unavailable
deriving DecidableEq

/-- save_group_to_db: a merge-set on the group document that writes group_name,
group_id, added_on, last_updated, invite_requirement_enabled = True and
required_invites = REQUIRED_INVITES.  All six fields of the document are
written, so the merge overwrites the whole record regardless of what was
stored before. -/
def save_group_to_db (now : Nat) (group_id : Int) (group_name : String)
    (old : Option GroupDoc) : GroupDoc :=
  let base := old.getD {}
  { base with
    group_name := some group_name
    group_id := some group_id
    added_on := some now
    last_updated := some now
    invite_requirement_enabled := some true
    required_invites := some REQUIRED_INVITES }

/-- get_group_settings: returns the document contents when the read succeeds
and the document exists; on a missing document or an exception it returns the
default dict with invite_requirement_enabled = True and
required_invites = REQUIRED_INVITES. -/
def get_group_settings : ReadOutcome GroupDoc → GroupDoc
  | .ok doc => doc
  | .missing =>
      { invite_requirement_enabled := some true
        required_invites := some REQUIRED_INVITES }
  | .unavailable =>
      { invite_requirement_enabled := some true
        required_invites := some REQUIRED_INVITES }

/-- get_user_invite_count: reads the inviter document's invite_count field
with default 0; a missing document or an exception also yields 0. -/
def get_user_invite_count : ReadOutcome (Option Int) → Int
  | .ok (some c) => c
  | .ok none => 0
  | .missing => 0
  | .unavailable => 0

/-- can_user_message: returns (can_message, current_invites, required_invites).
If invite_requirement_enabled (default True) is false the function returns
(True, 0, 0) without consulting the counter; otherwise it compares the user's
count against required_invites (default REQUIRED_INVITES). -/
def can_user_message (settingsRead : ReadOutcome GroupDoc)
    (countRead : ReadOutcome (Option Int)) : Bool × Int × Int :=
  let settings := get_group_settings settingsRead
  if settings.invite_requirement_enabled.getD true = false then
    (true, 0, 0)
  else
    let required := settings.required_invites.getD REQUIRED_INVITES
    let current := get_user_invite_count countRead
    (decide (required ≤ current), current, required)

/-- Result of the message gate in check_message_permission: either the message
stands, or it is deleted and the user is told how many invites remain. -/
inductive GateResult where
  | allowed
  | blocked (remaining : Int)
deriving DecidableEq

/-- check_message_permission: admins always pass; otherwise the result of
can_user_message decides, and on a block the notice reports
required - current remaining invites. -/
def check_message_permission (is_admin : Bool)
    (settingsRead : ReadOutcome GroupDoc)
    (countRead : ReadOutcome (Option Int)) : GateResult :=
  if is_admin then .allowed
  else
    match can_user_message settingsRead countRead with
    | (can_message, current, required) =>
        if can_message then .allowed else .blocked (required - current)

/-- Result of the /setrequirement handler: the negative-number reply (no
database write), or the updated group document. -/
inductive SetRequirementResult where
  | rejected
  | updated (doc : GroupDoc)
deriving DecidableEq

/-- set_requirement core: a negative argument is rejected with an error reply
and no write; otherwise the group document's required_invites is set to n and
invite_requirement_enabled to (n > 0). -/
def set_requirement (n : Int) (doc : GroupDoc) : SetRequirementResult :=
  if n < 0 then .rejected
  else .updated
    { doc with
      required_invites := some n
      invite_requirement_enabled := some (decide (0 < n)) }

/-- A document in a group's inviters subcollection. -/
structure InviterDoc where
  user_id : Int := 0
  invite_count : Int := 0
  user_name : Option String := none
  last_updated : Nat := 0
deriving DecidableEq

/-- Python truthiness of the optional user_name argument: None and the empty
string are falsy. -/
def truthy : Option String → Bool
  | none => false
  | some s => !s.isEmpty

/-- Lookup in the inviters association list (document get by user id). -/
def lookupDoc : List (Int × InviterDoc) → Int → Option InviterDoc
  | [], _ => none
  | (k, d) :: rest, key => if k = key then some d else lookupDoc rest key

/-- Write to the inviters association list (document set by user id). -/
def setDoc : List (Int × InviterDoc) → Int → InviterDoc → List (Int × InviterDoc)
  | [], key, d => [(key, d)]
  | (k, d0) :: rest, key, d =>
      if k = key then (key, d) :: rest else (k, d0) :: setDoc rest key d

/-- A row of a group's member_joins log, as written by log_member_join:
is_invited is (invited_by is not None). -/
structure JoinRow where
  user_id : Int
  invited_by : Option Int
  joined_at : Nat
  is_invited : Bool
deriving DecidableEq

/-- log_member_join: appends a fresh auto-id row to the member_joins log. -/
def log_member_join (now : Nat) (joins : List JoinRow) (user_id : Int)
    (invited_by : Option Int) : List JoinRow :=
  joins ++ [{ user_id := user_id
              invited_by := invited_by
              joined_at := now
              is_invited := invited_by.isSome }]

/-- The per-group slice of the database: the group document, the inviters
subcollection and the member_joins log. -/
structure GroupState where
  doc : Option GroupDoc := none
  inviters : List (Int × InviterDoc) := []
  joins : List JoinRow := []
deriving DecidableEq

/-- update_in_transaction, the transaction body inside increment_inviter_count:
given the snapshot of the inviter document, computes
new_count = snapshot.invite_count + 1 (or 1 when the document is absent) and
the merged document; the merge keeps the stored user_name when the argument is
not truthy. -/
def update_in_transaction (now : Nat) (user_id : Int) (user_name : Option String)
    (snapshot : Option InviterDoc) : InviterDoc × Int :=
  let new_count := match snapshot with
    | some s => s.invite_count + 1
    | none => 1
  let merged : InviterDoc :=
    { user_id := user_id
      invite_count := new_count
      last_updated := now
      user_name := if truthy user_name then user_name
                   else snapshot.bind (fun s => s.user_name) }
  (merged, new_count)

/-- increment_inviter_count, the committed path: run the transaction on the
inviter document, then update the group document's last_updated, and return
the new count.  There is no dedup token anywhere: every call increments. -/
def increment_inviter_count (now : Nat) (st : GroupState) (user_id : Int)
    (user_name : Option String) : GroupState × Int :=
  let snapshot := lookupDoc st.inviters user_id
  let r := update_in_transaction now user_id user_name snapshot
  ({ st with
     inviters := setDoc st.inviters user_id r.1
     doc := st.doc.map (fun d => { d with last_updated := some now }) }, r.2)

/-- How the body of increment_inviter_count terminates: the transaction
commits, the transaction's retry budget is exhausted by conflicts (the
transactional decorator raises), or the store raises some other error. -/
inductive TxOutcome where
  | committed
  | conflictExhausted
  | storeError
deriving DecidableEq

/-- increment_inviter_count with its surrounding try/except: any exception is
caught, logged, and the function returns 0 leaving the state as it was. -/
def increment_inviter_count_run (outcome : TxOutcome) (now : Nat)
    (st : GroupState) (user_id : Int) (user_name : Option String) :
    GroupState × Int :=
  match outcome with
  | .committed => increment_inviter_count now st user_id user_name
  | .conflictExhausted => (st, 0)
  | .storeError => (st, 0)

/-- The per-member loop body of handle_new_members: a bot member is skipped
entirely; when the acting user differs from the joining member the actor's
counter is incremented and an invited join is logged; otherwise (self join via
link) only the join is logged, with no inviter. -/
def process_member (now : Nat) (st : GroupState) (actor_id : Int)
    (actor_name : String) (member_id : Int) (member_is_bot : Bool) : GroupState :=
  if member_is_bot then st
  else if actor_id ≠ member_id then
    let r := increment_inviter_count now st actor_id (some actor_name)
    { r.1 with joins := log_member_join now r.1.joins member_id (some actor_id) }
  else
    { st with joins := log_member_join now st.joins member_id none }

/-- The sort key relation of the leaderboard sort in leaderboard_command and
show_leaderboard: sorted(..., key=invite_count, reverse=True).  Python's sort
is stable, so a comes before b exactly when b's count does not exceed a's;
ties keep the order in which the store streamed the documents. -/
abbrev lbRel (a b : Int × InviterDoc) : Prop :=
  b.2.invite_count ≤ a.2.invite_count

instance : IsTotal (Int × InviterDoc) lbRel :=
  ⟨fun a b => Int.le_total b.2.invite_count a.2.invite_count⟩

instance : IsTrans (Int × InviterDoc) lbRel :=
  ⟨fun _ _ _ hab hbc => le_trans hbc hab⟩

/-- sorted_inviters: the leaderboard read, a stable sort of the streamed
(user id, document) pairs by invite count descending, truncated to 10. -/
def sorted_inviters (inviter_stats : List (Int × InviterDoc)) :
    List (Int × InviterDoc) :=
  (List.insertionSort lbRel inviter_stats).take 10

/-- The ordering the specification claims for the leaderboard: count
descending with ties broken by ascending user id. -/
abbrev claimOrder (a b : Int × InviterDoc) : Prop :=
  b.2.invite_count < a.2.invite_count ∨
    (a.2.invite_count = b.2.invite_count ∧ a.1 < b.1)

/-- Key lemma for the double-increment theorem: reading back the document just
written returns exactly that document. -/
theorem lookupDoc_setDoc (l : List (Int × InviterDoc)) (k : Int) (d : InviterDoc) :
    lookupDoc (setDoc l k d) k = some d := by
  induction l with
  | nil => simp [setDoc, lookupDoc]
  | cons p rest ih =>
    obtain ⟨k2, d2⟩ := p
    by_cases h : k2 = k
    · simp [setDoc, h, lookupDoc]
    · simp [setDoc, h, lookupDoc, ih]

/-- Claim C2 counterexample: a group whose stored threshold is 5 with gating
disabled is re-registered, and the threshold comes back as the default 3 with
gating re-enabled — the merge-set overwrites required_invites and
invite_requirement_enabled instead of leaving them untouched. -/
theorem C2_counterexample :
    (save_group_to_db 30 1 "g"
        (some { required_invites := some 5
                invite_requirement_enabled := some false })).required_invites
      = some REQUIRED_INVITES ∧
    (save_group_to_db 30 1 "g"
        (some { required_invites := some 5
                invite_requirement_enabled := some false })).required_invites
      ≠ some 5 ∧
    (save_group_to_db 30 1 "g"
        (some { required_invites := some 5
                invite_requirement_enabled := some false })).invite_requirement_enabled
      = some true := by
  decide

/-- Claim C2 (amended): re-registering a group overwrites the whole record —
name, id, creation and update timestamps — and resets the invite threshold to
the default REQUIRED_INVITES and gating-enabled to true, independently of the
previously stored document. -/
theorem C2_amended (now : Nat) (gid : Int) (name : String) (old : Option GroupDoc) :
    save_group_to_db now gid name old =
      { group_name := some name
        group_id := some gid
        added_on := some now
        last_updated := some now
        invite_requirement_enabled := some true
        required_invites := some REQUIRED_INVITES } := by
  cases old <;> rfl

/-- Claim C3: the gate allows exactly when the user is an administrator, or
gating is disabled for the group, or the user's count is at least the group's
threshold; otherwise it blocks with remaining = threshold - count. -/
theorem C3_gate (is_admin : Bool) (s : GroupDoc) (c : Int) :
    (check_message_permission is_admin (.ok s) (.ok (some c)) = .allowed ↔
      (is_admin = true ∨ s.invite_requirement_enabled.getD true = false ∨
        s.required_invites.getD REQUIRED_INVITES ≤ c)) ∧
    (¬ (is_admin = true ∨ s.invite_requirement_enabled.getD true = false ∨
        s.required_invites.getD REQUIRED_INVITES ≤ c) →
      check_message_permission is_admin (.ok s) (.ok (some c)) =
        .blocked (s.required_invites.getD REQUIRED_INVITES - c)) := by
  cases is_admin <;>
    by_cases henabled : s.invite_requirement_enabled.getD true = false <;>
      by_cases hcount : s.required_invites.getD REQUIRED_INVITES ≤ c <;>
        simp [check_message_permission, can_user_message, get_group_settings,
          get_user_invite_count, henabled, hcount]

/-- Witness for C3 at a concrete input: a non-admin with 1 invite against an
enabled threshold of 3 is blocked with 2 remaining. -/
theorem C3_witness :
    check_message_permission false
        (.ok { invite_requirement_enabled := some true, required_invites := some 3 })
        (.ok (some 1)) = .blocked 2 :=
  (C3_gate false
      { invite_requirement_enabled := some true, required_invites := some 3 } 1).2
    (by decide)

/-- Claim C6: a negative argument to set_requirement is rejected without a
write, and a non-negative n stores required_invites = n and sets
invite_requirement_enabled to (n > 0). -/
theorem C6_set_requirement (n : Int) (doc : GroupDoc) :
    (n < 0 → set_requirement n doc = .rejected) ∧
    (0 ≤ n → set_requirement n doc = .updated
      { doc with
        required_invites := some n
        invite_requirement_enabled := some (decide (0 < n)) }) := by
  constructor
  · intro h
    simp [set_requirement, h]
  · intro h
    simp [set_requirement, not_lt.mpr h]

/-- Witness for C6 at concrete inputs: -1 is rejected; 0 stores threshold 0
with gating disabled; 5 stores threshold 5 with gating enabled. -/
theorem C6_witness :
    set_requirement (-1) {} = .rejected ∧
    set_requirement 0 {} = .updated
      { required_invites := some 0, invite_requirement_enabled := some false } ∧
    set_requirement 5 {} = .updated
      { required_invites := some 5, invite_requirement_enabled := some true } :=
  ⟨(C6_set_requirement (-1) {}).1 (by decide),
   (C6_set_requirement 0 {}).2 (by decide),
   (C6_set_requirement 5 {}).2 (by decide)⟩

/-- Claim C8 counterexample: with the store unavailable for both the settings
read and the counter read, a non-admin is blocked with 3 remaining — the
inner handlers swallow the failure into defaults (gating enabled, threshold
3, count 0) instead of failing open. -/
theorem C8_counterexample :
    check_message_permission false .unavailable .unavailable = .blocked 3 ∧
    check_message_permission false .unavailable .unavailable ≠ .allowed := by
  decide

/-- Claim C8 (amended): store failures inside get_group_settings and
get_user_invite_count are swallowed into defaults rather than failing open:
with the store unavailable the settings default to gating enabled with
threshold REQUIRED_INVITES and the count reads as 0, so a non-admin is
blocked with REQUIRED_INVITES remaining; only an administrator passes. -/
theorem C8_amended (is_admin : Bool) :
    check_message_permission is_admin .unavailable .unavailable =
      (if is_admin then .allowed else .blocked REQUIRED_INVITES) ∧
    can_user_message .unavailable .unavailable = (false, 0, REQUIRED_INVITES) := by
  cases is_admin <;> exact ⟨by decide, by decide⟩

/-- Claim C9: when gating is disabled for the group, can_user_message returns
(True, 0, 0) whatever the counter read would have produced — the reported
current count is 0 regardless of the user's actual invites. -/
theorem C9_disabled (s : GroupDoc) (countRead : ReadOutcome (Option Int))
    (h : s.invite_requirement_enabled = some false) :
    can_user_message (.ok s) countRead = (true, 0, 0) := by
  simp [can_user_message, get_group_settings, h]

/-- Witness for C9 at a concrete input: gating disabled, stored count 100,
and the gate still reports (True, 0, 0). -/
theorem C9_witness :
    can_user_message
        (.ok { invite_requirement_enabled := some false, required_invites := some 3 })
        (.ok (some 100)) = (true, 0, 0) :=
  C9_disabled _ _ rfl

/-- Claim C1 counterexample: the same join event (actor 5 adds member 7) is
delivered twice; the inviter's final count is 2 after two applications but 1
after one, and the two final states differ — there is no dedup token and
redelivery increments again. -/
theorem C1_counterexample :
    ((lookupDoc (process_member 0 (process_member 0 {} 5 "a" 7 false) 5 "a" 7
        false).inviters 5).map (fun d => d.invite_count) = some 2) ∧
    ((lookupDoc (process_member 0 ({} : GroupState) 5 "a" 7
        false).inviters 5).map (fun d => d.invite_count) = some 1) ∧
    (process_member 0 (process_member 0 {} 5 "a" 7 false) 5 "a" 7 false ≠
      process_member 0 ({} : GroupState) 5 "a" 7 false) := by
  decide

/-- Claim C1 (amended): increment_inviter_count consults no dedup token and
never returns without incrementing: a second application for the same inviter
always returns one more than the first, whatever names and timestamps the two
deliveries carry. -/
theorem C1_amended (now now2 : Nat) (st : GroupState) (user_id : Int)
    (nm nm2 : Option String) :
    (increment_inviter_count now2 (increment_inviter_count now st user_id nm).1
        user_id nm2).2 =
      (increment_inviter_count now st user_id nm).2 + 1 := by
  simp [increment_inviter_count, update_in_transaction, lookupDoc_setDoc]

/-- Claim C5 counterexample: with a stored count of 7 and the transaction's
retry budget exhausted, the caller receives the default value 0 and an
unchanged state — no error of any kind is surfaced — while the committed run
of the very same call would have returned 8. -/
theorem C5_counterexample :
    increment_inviter_count_run .conflictExhausted 0
        { inviters := [(5, { user_id := 5, invite_count := 7 })] } 5 none =
      ({ inviters := [(5, { user_id := 5, invite_count := 7 })] }, 0) ∧
    (increment_inviter_count_run .committed 0
        { inviters := [(5, { user_id := 5, invite_count := 7 })] } 5 none).2 = 8 := by
  decide

/-- Claim C5 (amended): every exception escaping the transaction — retry
budget exhausted or any other store error — is caught by the surrounding
try/except, which returns 0 to the caller; no CounterUpdateFailed error type
exists in the code and the caller cannot distinguish the failure. -/
theorem C5_amended (now : Nat) (st : GroupState) (user_id : Int)
    (user_name : Option String) :
    increment_inviter_count_run .conflictExhausted now st user_id user_name
      = (st, 0) ∧
    increment_inviter_count_run .storeError now st user_id user_name
      = (st, 0) :=
  ⟨rfl, rfl⟩

/-- Claim C7: a self join (the acting user is the joining member, not a bot)
leaves the inviter counters and the group document untouched and appends
exactly one member_joins row with an absent inviter and is_invited = false. -/
theorem C7_self_join (now : Nat) (st : GroupState) (actor_id : Int)
    (actor_name : String) (member_id : Int) (h : actor_id = member_id) :
    process_member now st actor_id actor_name member_id false =
      { st with joins := st.joins ++
          [{ user_id := member_id
             invited_by := none
             joined_at := now
             is_invited := false }] } := by
  simp [process_member, h, log_member_join]

/-- Witness for C7 at a concrete input: user 9 joins by link (actor 9) and
only a self-join log row is produced. -/
theorem C7_witness :
    process_member 5 {} 9 "n" 9 false =
      { joins := [{ user_id := 9
                    invited_by := none
                    joined_at := 5
                    is_invited := false }] } :=
  C7_self_join 5 {} 9 "n" 9 rfl

/-- Claim C10: a joining member flagged as a bot — any bot, whatever its id
and whoever added it — is skipped entirely: no counter changes and no
member_joins row is appended; the state is returned unchanged. -/
theorem C10_bot_skipped (now : Nat) (st : GroupState) (actor_id : Int)
    (actor_name : String) (member_id : Int) :
    process_member now st actor_id actor_name member_id true = st := by
  simp [process_member]

/-- Claim C4 counterexample: users 21 and 3 are tied at 2 invites and the
store streams user 21 first (document ids are compared as strings, and the
string 21 precedes the string 3).  Python's stable sort keeps user 21 ahead
of user 3, so the returned leaderboard violates the claimed
ascending-user-id tie-break. -/
theorem C4_counterexample :
    sorted_inviters [(21, { user_id := 21, invite_count := 2 }),
        (3, { user_id := 3, invite_count := 2 })] =
      [(21, { user_id := 21, invite_count := 2 }),
       (3, { user_id := 3, invite_count := 2 })] ∧
    ¬ (sorted_inviters [(21, { user_id := 21, invite_count := 2 }),
        (3, { user_id := 3, invite_count := 2 })]).Sorted claimOrder := by
  decide

/-- Claim C4 (amended): the leaderboard read returns the first 10 entries of
a stable descending sort by invite count — entries are pairwise ordered by
count descending, the result has length min 10 (number of entries), and it is
a prefix of a permutation of the streamed entries; ties keep the order in
which the store streamed the documents, not ascending user id. -/
theorem C4_amended (l : List (Int × InviterDoc)) :
    (sorted_inviters l).Sorted lbRel ∧
    (sorted_inviters l).length = min 10 l.length ∧
    ∃ rest, (sorted_inviters l ++ rest).Perm l := by
  refine ⟨?_, ?_, ?_⟩
  · exact List.Pairwise.sublist (List.take_sublist 10 _)
      (List.sorted_insertionSort lbRel l)
  · rw [sorted_inviters, List.length_take,
      (List.perm_insertionSort lbRel l).length_eq]
  · refine ⟨(List.insertionSort lbRel l).drop 10, ?_⟩
    rw [sorted_inviters, List.take_append_drop]
    exact List.perm_insertionSort lbRel l
